import Mathlib

/-!
Verification of the realtime entity synchronization client of
univrs/mycelial-dashboard: a shallow embedding of
`dashboard/src/hooks/useP2P.ts` and
`dashboard/src/hooks/useOrchestrator.ts`, with theorems settling the
frozen claims about the spec.

Modelling conventions:
* A JavaScript `Map<string, T>` is embedded as an insertion-ordered
  association list `List (String × T)`; `mapSet` replaces in place or
  appends (the semantics of `Map.prototype.set`), `mapDelete` removes the
  entry, `mapGet` looks up.
* A possibly-`undefined` JS value is an `Option`; JS truthiness on strings
  (`a || b`) treats the empty string as falsy, which `jsOr` reproduces;
  objects and arrays are truthy whenever present, which `jsOrOpt`
  reproduces.
* JS numbers appearing in the data (reputation scores, progress) are
  embedded as `Rat`; the code only stores, compares and passes them
  through, it performs no rounding arithmetic on them.
* Asynchronous REST calls are embedded by passing the resolved
  `Response` (ok flag, status, parsed JSON body) as an argument; a thrown
  error is the `Option String` component of the result.
-/

/-- `Map.prototype.set`: replace the entry under the key in place, or
append a new entry at the end. -/
def mapSet {α : Type} : List (String × α) → String → α → List (String × α)
  | [], key, value => [(key, value)]
  | entry :: rest, key, value =>
      if entry.1 = key then (key, value) :: rest
      else entry :: mapSet rest key value

/-- `Map.prototype.delete`: remove the entry under the key (no-op when
absent). -/
def mapDelete {α : Type} : List (String × α) → String → List (String × α)
  | [], _ => []
  | entry :: rest, key =>
      if entry.1 = key then rest else entry :: mapDelete rest key

/-- `Map.prototype.get`. -/
def mapGet {α : Type} : List (String × α) → String → Option α
  | [], _ => none
  | entry :: rest, key =>
      if entry.1 = key then some entry.2 else mapGet rest key

/-- The keys of the embedded map, in insertion order. -/
def mapKeys {α : Type} (m : List (String × α)) : List String :=
  m.map Prod.fst

/-- JS truthiness of a possibly-undefined string: `undefined` and `""` are
falsy. -/
def truthyStr : Option String → Bool
  | some s => decide (s ≠ "")
  | none => false

/-- JS `a || b` on possibly-undefined strings, `none` when both are
falsy (a falsy result is only ever consumed by a further falsiness
check or a falsy-default, so collapsing falsy results to `none` is
faithful). -/
def jsOr (a b : Option String) : Option String :=
  if truthyStr a then a else if truthyStr b then b else none

/-- JS `a || b || ''` on possibly-undefined strings. -/
def jsOrStr (a b : Option String) : String :=
  (jsOr a b).getD ""

/-- JS `a || b` where the operands are objects or arrays (truthy whenever
present). -/
def jsOrOpt {α : Type} (a b : Option α) : Option α :=
  match a with
  | some x => some x
  | none => b

/-- `list.slice(-n)`: the last `n` elements (all of them when shorter). -/
def sliceLast {α : Type} (l : List α) (n : Nat) : List α :=
  l.drop (l.length - n)

namespace P2P

/-- The shape `normalizePeer` produces (`NormalizedPeer` in
`dashboard/src/types`): id, display name, reputation score, optional
location, address list. -/
structure NormalizedPeer where
  id : String
  name : String
  reputation : Rat
  location : Option String
  addresses : List String
  deriving Repr, DecidableEq

/-- A chat message as constructed in `useP2P.ts` (`from` is a Lean keyword,
so the field is `from_`; likewise `to` becomes `to_`). -/
structure ChatMessage where
  id : String
  from_ : String
  from_name : String
  to_ : Option String
  content : String
  timestamp : Nat
  deriving Repr, DecidableEq

/-- The shape of the raw `reputation` field of an inbound peer payload:
a bare number, an object with an optional numeric `score`, or absent. -/
inductive RepField
  | num (value : Rat)
  | obj (score : Option Rat)
  | absent
  deriving Repr, DecidableEq

/-- A raw peer payload from any backend format (the `any`-typed argument
of `normalizePeer`): every field possibly missing. -/
structure RawPeer where
  id : Option String
  peer_id : Option String
  name : Option String
  display_name : Option String
  reputation : RepField
  location : Option String
  addresses : Option (List String)
  deriving Repr, DecidableEq

/-- `normalizePeer` from `useP2P.ts` lines 19–33:
`id = peer.id || peer.peer_id || ''`;
`name = peer.name || peer.display_name || ` + "Peer-" + first 12 chars;
`reputation = typeof peer.reputation === 'number' ? peer.reputation
 : (peer.reputation?.score ?? 0.5)` — the literal 0.5 is written 1/2;
`addresses = peer.addresses || []`. -/
def normalizePeer (peer : RawPeer) : NormalizedPeer :=
  let id := jsOrStr peer.id peer.peer_id
  let name := (jsOr peer.name peer.display_name).getD ("Peer-" ++ id.take 12)
  let reputation :=
    match peer.reputation with
    | .num value => value
    | .obj score => score.getD (mkRat 1 2)
    | .absent => (mkRat 1 2)
  { id := id
    name := name
    reputation := reputation
    location := peer.location
    addresses := peer.addresses.getD [] }

/-- The `P2PState` React state of `useP2P`. -/
structure P2PState where
  connected : Bool
  localPeerId : Option String
  peers : List (String × NormalizedPeer)
  messages : List ChatMessage
  deriving Repr, DecidableEq

/-- The `useState` initializer of `useP2P`. -/
def initialP2PState : P2PState :=
  { connected := false, localPeerId := none, peers := [], messages := [] }

/-- A resolved response of `fetch(apiUrl + "/api/peers")`: HTTP ok flag and
status, and the JSON body parsed as an array of raw peers. -/
structure PeersResponse where
  ok : Bool
  status : Nat
  body : List RawPeer
  deriving Repr, DecidableEq

/-- `fetchPeers` from `useP2P.ts` lines 56–77: parses the body as the peer
snapshot WITHOUT checking `response.ok`, builds a NEW map from empty
(`const newPeers = new Map()`), keeps only peers whose normalized id is
truthy, and replaces `state.peers` with it.  A thrown error (not modelled
here: only the status path is) would be swallowed by the
`catch`/`console.error` with no state change and no rethrow. -/
def fetchPeers (response : PeersResponse) (s : P2PState) : P2PState :=
  let newPeers := response.body.foldl
    (fun m peer =>
      let normalized := normalizePeer peer
      if normalized.id ≠ "" then mapSet m normalized.id normalized else m)
    []
  { s with peers := newPeers }

/-- An inbound push-channel frame as dispatched by `handleMessage` in
`useP2P.ts` (lines 91–146), keyed on `message.type`.  Candidate field
paths (flat vs. nested under `data`) are carried separately; `selfPeer`
(resp. `selfMsg`) is the whole frame reinterpreted as a payload, the last
fallback of `message.peer_info || message.data?.peer_info || message`
(resp. `message.data || message`). -/
inductive P2PMessage
  | peers_list (peers : Option (List RawPeer)) (dataPeers : Option (List RawPeer))
  | peer_joined (peer_id : Option String) (dataPeerId : Option String)
      (peer_info : Option RawPeer) (dataPeerInfo : Option RawPeer)
      (selfPeer : RawPeer)
  | peer_left (peer_id : Option String) (dataPeerId : Option String)
  | chat_message (data : Option ChatMessage) (selfMsg : ChatMessage)
  | other (type_ : String)
  deriving Repr, DecidableEq

/-- `handleMessage` from `useP2P.ts` lines 91–146.  `peers_list` merges
into a copy of the existing map (`new Map(s.peers)`); `peer_joined`
upserts under the found id, overriding the payload id
(`normalizePeer({ ...peerInfo, id: peerId })`); `peer_left` deletes;
`chat_message` appends to the last-99 slice of the log; unknown tags are
logged and dropped.  The function is total: a frame never aborts the
channel. -/
def handleMessage (message : P2PMessage) (s : P2PState) : P2PState :=
  match message with
  | .peers_list peers dataPeers =>
      let peerList := (jsOrOpt peers dataPeers).getD []
      let newPeers := peerList.foldl
        (fun m peer =>
          let normalized := normalizePeer peer
          if normalized.id ≠ "" then mapSet m normalized.id normalized else m)
        s.peers
      { s with peers := newPeers }
  | .peer_joined peer_id dataPeerId peer_info dataPeerInfo selfPeer =>
      match jsOr peer_id dataPeerId with
      | some peerId =>
          let peerInfo := (jsOrOpt peer_info dataPeerInfo).getD selfPeer
          let normalized := normalizePeer { peerInfo with id := some peerId }
          { s with peers := mapSet s.peers peerId normalized }
      | none => s
  | .peer_left peer_id dataPeerId =>
      match jsOr peer_id dataPeerId with
      | some peerId => { s with peers := mapDelete s.peers peerId }
      | none => s
  | .chat_message data selfMsg =>
      { s with messages := sliceLast s.messages 99 ++ [data.getD selfMsg] }
  | .other _ => s

/-- An outbound client→server frame. -/
inductive OutboundFrame
  | send_chat (content : String) (to_ : Option String)
  | subscribe (topic : String)
  deriving Repr, DecidableEq

/-- Result of a `sendChat` call: the frames written to the channel and the
state afterwards. -/
structure SendChatResult where
  sent : List OutboundFrame
  state : P2PState
  deriving Repr, DecidableEq

/-- The readyState of the (possibly null) `wsRef.current`. -/
inductive ReadyState
  | CONNECTING
  | OPEN
  | CLOSING
  | CLOSED
  deriving Repr, DecidableEq

/-- `sendChat` from `useP2P.ts` lines 214–244: if
`wsRef.current?.readyState !== WebSocket.OPEN` it warns and RETURNS —
nothing is sent and nothing is appended.  Otherwise it sends the
`send_chat` frame and appends the local optimistic echo tagged with the
local peer id (`s.localPeerId || 'unknown'`), `to: to || undefined`,
`id: 'local-' + Date.now()`, `timestamp: Date.now()` (embedded clock
argument `now`). -/
def sendChat (readyState : Option ReadyState) (now : Nat)
    (content : String) (to_ : Option String) (s : P2PState) : SendChatResult :=
  if readyState ≠ some ReadyState.OPEN then
    { sent := [], state := s }
  else
    let localId := s.localPeerId.getD "unknown"
    let shortId := localId.take 8
    let chatMessage : ChatMessage :=
      { id := "local-" ++ toString now
        from_ := localId
        from_name := "Peer-" ++ shortId ++ " (you)"
        to_ := if truthyStr to_ then to_ else none
        content := content
        timestamp := now }
    { sent := [OutboundFrame.send_chat content to_]
      state := { s with messages := sliceLast s.messages 99 ++ [chatMessage] } }

end P2P

namespace Orchestrator

/-- A workload entity (`Workload` in `dashboard/src/types`), restricted to
the fields the embedded handlers read or write: id, status, progress,
creation time. -/
structure Workload where
  id : String
  status : String
  progress : Rat
  createdAt : Nat
  deriving Repr, DecidableEq

/-- A cluster node health entity (`NodeHealth`): the embedded handlers
only ever read `nodeId` and store the rest opaquely, so the remaining
shape is summarized by the status string. -/
structure NodeHealth where
  nodeId : String
  status : String
  deriving Repr, DecidableEq

/-- Aggregate cluster metrics; stored opaquely by the handler, so only a
representative pair of figures is carried. -/
structure ClusterMetrics where
  totalNodes : Nat
  totalWorkloads : Nat
  deriving Repr, DecidableEq

/-- The `OrchestratorState` React state of `useOrchestrator`. -/
structure OrchestratorState where
  connected : Bool
  loading : Bool
  error : Option String
  workloads : List (String × Workload)
  nodes : List (String × NodeHealth)
  clusterMetrics : Option ClusterMetrics
  deriving Repr, DecidableEq

/-- The `useState` initializer of `useOrchestrator`. -/
def initialOrchestratorState : OrchestratorState :=
  { connected := false, loading := false, error := none,
    workloads := [], nodes := [], clusterMetrics := none }

/-- An inbound orchestrator frame as dispatched by `handleMessage` in
`useOrchestrator.ts` lines 49–126, keyed on `event.type`.  A list payload
may be `null`/absent (`(event.data as Workload[]) || []`). -/
inductive OrchestratorEvent
  | workload_list (data : Option (List Workload))
  | workload_created (data : Workload)
  | workload_updated (data : Workload)
  | workload_completed (data : Workload)
  | workload_failed (data : Workload)
  | node_list (data : Option (List NodeHealth))
  | node_status (data : NodeHealth)
  | node_joined (data : NodeHealth)
  | node_left (nodeId : String)
  | cluster_metrics (data : ClusterMetrics)
  | other (type_ : String)
  deriving Repr, DecidableEq

/-- `handleMessage` from `useOrchestrator.ts` lines 49–126: list events
merge into a copy of the existing map (`new Map(s.workloads)` /
`new Map(s.nodes)`); single-entity events upsert under `workload.id` /
`node.nodeId` with no emptiness check; `node_left` deletes;
`cluster_metrics` replaces the metrics value; a tag without a case falls
through the `switch` unchanged. -/
def handleMessage (event : OrchestratorEvent) (s : OrchestratorState) :
    OrchestratorState :=
  match event with
  | .workload_list data =>
      let workloads := data.getD []
      let newWorkloads := workloads.foldl
        (fun m workload => mapSet m workload.id workload) s.workloads
      { s with workloads := newWorkloads }
  | .workload_created workload | .workload_updated workload
  | .workload_completed workload | .workload_failed workload =>
      { s with workloads := mapSet s.workloads workload.id workload }
  | .node_list data =>
      let nodes := data.getD []
      let newNodes := nodes.foldl
        (fun m node => mapSet m node.nodeId node) s.nodes
      { s with nodes := newNodes }
  | .node_status node | .node_joined node =>
      { s with nodes := mapSet s.nodes node.nodeId node }
  | .node_left nodeId =>
      { s with nodes := mapDelete s.nodes nodeId }
  | .cluster_metrics metrics =>
      { s with clusterMetrics := some metrics }
  | .other _ => s

/-- A pull-channel collection response body: either a bare JSON array or
an object whose named field optionally holds the array
(`Array.isArray(data) ? data : data.workloads || []`). -/
inductive JsonListBody (α : Type)
  | arr (items : List α)
  | obj (items : Option (List α))
  deriving Repr, DecidableEq

/-- The extraction rule applied to a `JsonListBody`. -/
def JsonListBody.extract {α : Type} : JsonListBody α → List α
  | .arr items => items
  | .obj items => items.getD []

/-- A resolved pull-channel response. -/
structure FetchResponse (α : Type) where
  ok : Bool
  status : Nat
  body : JsonListBody α
  deriving Repr, DecidableEq

/-- `fetchWorkloads` from `useOrchestrator.ts` lines 129–149: on a
non-success status it throws `Failed to fetch workloads: <status>`, which
the `catch` records in `state.error` and rethrows to the caller (second
result component); on success it builds a NEW map from empty
(`const workloads = new Map()`) keyed by `w.id`, replaces
`state.workloads` with it and clears `state.error`.  There is no retry. -/
def fetchWorkloads (response : FetchResponse Workload)
    (s : OrchestratorState) : OrchestratorState × Option String :=
  if response.ok then
    let workloadList := response.body.extract
    let workloads := workloadList.foldl
      (fun m w => mapSet m w.id w) []
    ({ s with workloads := workloads, error := none }, none)
  else
    let errorMsg := "Failed to fetch workloads: " ++ toString response.status
    ({ s with error := some errorMsg }, some errorMsg)

/-- `fetchNodes` from `useOrchestrator.ts` lines 152–172: same contract as
`fetchWorkloads`, keyed by `n.nodeId`. -/
def fetchNodes (response : FetchResponse NodeHealth)
    (s : OrchestratorState) : OrchestratorState × Option String :=
  if response.ok then
    let nodeList := response.body.extract
    let nodes := nodeList.foldl
      (fun m n => mapSet m n.nodeId n) []
    ({ s with nodes := nodes, error := none }, none)
  else
    let errorMsg := "Failed to fetch nodes: " ++ toString response.status
    ({ s with error := some errorMsg }, some errorMsg)

/-- A resolved response of a state-changing POST (`.../cancel`,
`.../retry`); the body is not read by the commands. -/
structure CmdResponse where
  ok : Bool
  status : Nat
  deriving Repr, DecidableEq

/-- A `workload_<command>` frame sent by `sendWorkloadCommand`
(lines 327–337); it is only sent when the push channel is OPEN. -/
structure WsCommand where
  type_ : String
  workloadId : String
  deriving Repr, DecidableEq

/-- The result of an imperative workload command: the state afterwards,
the WebSocket frames written, and the error thrown to the caller. -/
structure CommandResult where
  state : OrchestratorState
  sent : List WsCommand
  thrown : Option String
  deriving Repr, DecidableEq

/-- `cancelWorkload` from `useOrchestrator.ts` lines 374–405: it FIRST
awaits the REST call; on non-success it throws, the `catch` records the
message in `state.error` and rethrows — the store is never touched.  Only
after a successful resolution does it apply the local update (status
`'cancelled'` when the workload is present) and then invoke
`sendWorkloadCommand('cancel', ...)` (a frame only if the channel is
open). -/
def cancelWorkload (response : CmdResponse) (wsOpen : Bool)
    (workloadId : String) (s : OrchestratorState) : CommandResult :=
  if response.ok then
    let newWorkloads :=
      match mapGet s.workloads workloadId with
      | some workload =>
          mapSet s.workloads workloadId { workload with status := "cancelled" }
      | none => s.workloads
    { state := { s with workloads := newWorkloads }
      sent := if wsOpen then [{ type_ := "workload_cancel", workloadId := workloadId }] else []
      thrown := none }
  else
    let errorMsg := "Failed to cancel workload: " ++ toString response.status
    { state := { s with error := some errorMsg }, sent := [], thrown := some errorMsg }

/-- `retryWorkload` from `useOrchestrator.ts` lines 408–439: same shape as
`cancelWorkload`, with the local update setting status `'pending'` and
progress `0`. -/
def retryWorkload (response : CmdResponse) (wsOpen : Bool)
    (workloadId : String) (s : OrchestratorState) : CommandResult :=
  if response.ok then
    let newWorkloads :=
      match mapGet s.workloads workloadId with
      | some workload =>
          mapSet s.workloads workloadId
            { workload with status := "pending", progress := 0 }
      | none => s.workloads
    { state := { s with workloads := newWorkloads }
      sent := if wsOpen then [{ type_ := "workload_retry", workloadId := workloadId }] else []
      thrown := none }
  else
    let errorMsg := "Failed to retry workload: " ++ toString response.status
    { state := { s with error := some errorMsg }, sent := [], thrown := some errorMsg }

/-- `createWorkload` from `useOrchestrator.ts` lines 340–371: on success
the server's returned workload is upserted under its id (no emptiness
check); on failure the error is recorded and rethrown with no store
change. -/
def createWorkload (ok : Bool) (status : Nat) (newWorkload : Workload)
    (s : OrchestratorState) : OrchestratorState × Option String :=
  if ok then
    ({ s with workloads := mapSet s.workloads newWorkload.id newWorkload }, none)
  else
    let errorMsg := "Failed to create workload: " ++ toString status
    ({ s with error := some errorMsg }, some errorMsg)

/-- The observable steps of one imperative command invocation, in program
order. -/
inductive CmdEvent
  | restCall
  | restResolve (ok : Bool)
  | storeUpdate
  | wsNotify
  | errorSet
  deriving Repr, DecidableEq

/-- The program-order trace of `cancelWorkload`: the REST call is issued
and awaited; only on a successful resolution are the local store update
and the WebSocket notification performed; on failure the error is
recorded and rethrown. -/
def cancelWorkloadTrace (ok : Bool) : List CmdEvent :=
  CmdEvent.restCall :: CmdEvent.restResolve ok ::
    (if ok then [CmdEvent.storeUpdate, CmdEvent.wsNotify] else [CmdEvent.errorSet])

/-- The program-order trace of `retryWorkload` (identical control flow to
`cancelWorkloadTrace`). -/
def retryWorkloadTrace (ok : Bool) : List CmdEvent :=
  CmdEvent.restCall :: CmdEvent.restResolve ok ::
    (if ok then [CmdEvent.storeUpdate, CmdEvent.wsNotify] else [CmdEvent.errorSet])

end Orchestrator

namespace Conn

/-- The reconnect configuration consumed by both hooks. -/
structure ConnConfig where
  reconnectInterval : Nat
  maxReconnectAttempts : Nat
  deriving Repr, DecidableEq

/-- The default configuration of both hooks
(`reconnectInterval = 3000`, `maxReconnectAttempts = 5`). -/
def defaultConfig : ConnConfig :=
  { reconnectInterval := 3000, maxReconnectAttempts := 5 }

/-- The connection-lifecycle state of one hook instance: the module-level
refs (`wsRef.current?.readyState`, `reconnectTimerRef`,
`reconnectAttemptsRef`, `isConnectingRef`) together with the
connection-relevant slice of the React state (`connected`, and for the
orchestrator hook `error`). -/
structure ConnState where
  ws : Option P2P.ReadyState
  reconnectTimer : Option Nat
  reconnectAttempts : Nat
  isConnecting : Bool
  connected : Bool
  error : Option String
  deriving Repr, DecidableEq

/-- The refs and state as initialized on mount. -/
def initialConnState : ConnState :=
  { ws := none, reconnectTimer := none, reconnectAttempts := 0,
    isConnecting := false, connected := false, error := none }

/-- What a `connect()` call did. -/
inductive ConnectOutcome
  | attempted
  | alreadyActive
  | exhausted
  deriving Repr, DecidableEq

/-- `connect` from `useP2P.ts` lines 148–212: guard against a concurrent
or open connection; then, if the attempt counter has reached the ceiling,
warn and return WITHOUT attempting (no state change beyond the log);
otherwise construct the WebSocket (readyState CONNECTING) and mark
`isConnecting`. -/
def connectP2P (cfg : ConnConfig) (s : ConnState) : ConnState × ConnectOutcome :=
  if s.isConnecting then (s, ConnectOutcome.alreadyActive)
  else if s.ws = some P2P.ReadyState.OPEN then (s, ConnectOutcome.alreadyActive)
  else if s.ws = some P2P.ReadyState.CONNECTING then (s, ConnectOutcome.alreadyActive)
  else if s.reconnectAttempts ≥ cfg.maxReconnectAttempts then
    (s, ConnectOutcome.exhausted)
  else
    ({ s with isConnecting := true, ws := some P2P.ReadyState.CONNECTING },
     ConnectOutcome.attempted)

/-- `connect` from `useOrchestrator.ts` lines 210–304: same guards as the
P2P variant, but on an exhausted budget it additionally records the
terminal error in the React state
(`Connection failed after N attempts. Server may be unavailable.`), and
on an attempt it clears the error and sets loading. -/
def connectOrch (cfg : ConnConfig) (s : ConnState) : ConnState × ConnectOutcome :=
  if s.isConnecting then (s, ConnectOutcome.alreadyActive)
  else if s.ws = some P2P.ReadyState.OPEN then (s, ConnectOutcome.alreadyActive)
  else if s.ws = some P2P.ReadyState.CONNECTING then (s, ConnectOutcome.alreadyActive)
  else if s.reconnectAttempts ≥ cfg.maxReconnectAttempts then
    ({ s with connected := false,
              error := some ("Connection failed after "
                ++ toString cfg.maxReconnectAttempts
                ++ " attempts. Server may be unavailable.") },
     ConnectOutcome.exhausted)
  else
    ({ s with isConnecting := true, ws := some P2P.ReadyState.CONNECTING,
              error := none },
     ConnectOutcome.attempted)

/-- `ws.onopen` of either hook: clear `isConnecting`, reset the attempt
counter to zero, mark connected (the socket is now OPEN). -/
def onOpen (s : ConnState) : ConnState :=
  { s with isConnecting := false, reconnectAttempts := 0,
           connected := true, ws := some P2P.ReadyState.OPEN }

/-- `ws.onclose` of either hook (`useP2P.ts` lines 176–190,
`useOrchestrator.ts` lines 251–265): clear `isConnecting`, null the ref,
mark disconnected; then, unless the close was clean (`code === 1000`) or
the attempt counter has reached the ceiling, increment the counter and
schedule `connect` after `reconnectInterval * 2 ** (attempts - 1)`
milliseconds. -/
def onClose (cfg : ConnConfig) (code : Nat) (s : ConnState) : ConnState :=
  let s := { s with isConnecting := false, ws := none, connected := false }
  if code ≠ 1000 ∧ s.reconnectAttempts < cfg.maxReconnectAttempts then
    let attempts := s.reconnectAttempts + 1
    { s with reconnectAttempts := attempts,
             reconnectTimer := some (cfg.reconnectInterval * 2 ^ (attempts - 1)) }
  else s

/-- `disconnect` of either hook (`useP2P.ts` lines 246–257,
`useOrchestrator.ts` lines 306–317): clear any pending reconnect timer,
reset the attempt counter to zero, clear `isConnecting`, and request a
clean close (`ws.close(1000, 'Client disconnect')`) when a socket exists.
The second component is the close code requested, if any. -/
def disconnect (s : ConnState) : ConnState × Option Nat :=
  ({ s with reconnectTimer := none, reconnectAttempts := 0,
            isConnecting := false, ws := none },
   s.ws.map (fun _ => 1000))

/-- One round of the abnormal-close scenario of the P2P hook: a `connect`
attempt immediately followed by an abnormal close (code 1006). -/
def abnormalCycleP2P (cfg : ConnConfig) (s : ConnState) : ConnState :=
  onClose cfg 1006 (connectP2P cfg s).1

/-- One round of the abnormal-close scenario of the orchestrator hook. -/
def abnormalCycleOrch (cfg : ConnConfig) (s : ConnState) : ConnState :=
  onClose cfg 1006 (connectOrch cfg s).1

/-- An externally triggered occurrence after a `disconnect()`: either the
deadline of a previously scheduled reconnect timer passes (`fire` — a
no-op when the timer was cancelled, otherwise it runs `connect`), or the
clean close requested by `disconnect` is delivered (`cleanClose`,
code 1000). -/
inductive PostStep
  | fire
  | cleanClose
  deriving Repr, DecidableEq

/-- Run one post-disconnect step with the given `connect` implementation;
the Boolean records whether a new connection attempt was made. -/
def postStep (cfg : ConnConfig)
    (connectFn : ConnState → ConnState × ConnectOutcome) :
    PostStep → ConnState → ConnState × Bool
  | PostStep.fire, s =>
      match s.reconnectTimer with
      | none => (s, false)
      | some _ =>
          let r := connectFn { s with reconnectTimer := none }
          (r.1, r.2 = ConnectOutcome.attempted)
  | PostStep.cleanClose, s => (onClose cfg 1000 s, false)

/-- Run a sequence of post-disconnect steps; the Boolean records whether
ANY of them made a connection attempt. -/
def runPost (cfg : ConnConfig)
    (connectFn : ConnState → ConnState × ConnectOutcome) :
    List PostStep → ConnState → ConnState × Bool
  | [], s => (s, false)
  | step :: rest, s =>
      let r := postStep cfg connectFn step s
      let rr := runPost cfg connectFn rest r.1
      (rr.1, r.2 || rr.2)

end Conn

section MapLemmas

variable {β : Type}

theorem mapGet_mapSet_self (m : List (String × β)) (k : String) (v : β) :
    mapGet (mapSet m k v) k = some v := by
  induction m with
  | nil => simp [mapSet, mapGet]
  | cons e rest ih =>
      by_cases h : e.1 = k
      · simp [mapSet, h, mapGet]
      · simp [mapSet, h, mapGet, ih]

theorem mapGet_mapSet_other (m : List (String × β)) (k k' : String) (v : β)
    (h : k' ≠ k) : mapGet (mapSet m k v) k' = mapGet m k' := by
  induction m with
  | nil => simp [mapSet, mapGet, Ne.symm h]
  | cons e rest ih =>
      by_cases he : e.1 = k
      · subst he
        simp [mapSet, mapGet, Ne.symm h]
      · simp [mapSet, he, mapGet, ih]

theorem mapGet_mapSet_isSome (m : List (String × β)) (k k' : String) (v : β)
    (h : (mapGet m k').isSome) : (mapGet (mapSet m k v) k').isSome := by
  by_cases hk : k' = k
  · subst hk; simp [mapGet_mapSet_self]
  · rwa [mapGet_mapSet_other m k k' v hk]

theorem mapKeys_mapSet (m : List (String × β)) (k : String) (v : β) :
    mapKeys (mapSet m k v)
      = if k ∈ mapKeys m then mapKeys m else mapKeys m ++ [k] := by
  induction m with
  | nil => simp [mapSet, mapKeys]
  | cons e rest ih =>
      simp only [mapKeys] at ih ⊢
      by_cases h : e.1 = k
      · simp [mapSet, h, List.mem_cons]
      · by_cases hm : k ∈ List.map Prod.fst rest <;>
          simp [mapSet, h, List.mem_cons, Ne.symm h, hm, ih]

theorem nodup_mapSet (m : List (String × β)) (k : String) (v : β)
    (h : (mapKeys m).Nodup) : (mapKeys (mapSet m k v)).Nodup := by
  rw [mapKeys_mapSet]
  by_cases hmem : k ∈ mapKeys m
  · simpa [hmem] using h
  · rw [if_neg hmem]
    exact h.append (List.nodup_singleton k)
      (fun x hx hx' => by simp at hx'; exact hmem (hx' ▸ hx))

theorem mapDelete_sublist (m : List (String × β)) (k : String) :
    (mapDelete m k).Sublist m := by
  induction m with
  | nil => simp [mapDelete]
  | cons e rest ih =>
      by_cases h : e.1 = k
      · simp only [mapDelete, if_pos h]
        exact List.sublist_cons_self e rest
      · simp only [mapDelete, if_neg h]
        exact ih.cons₂ e

theorem nodup_mapDelete (m : List (String × β)) (k : String)
    (h : (mapKeys m).Nodup) : (mapKeys (mapDelete m k)).Nodup :=
  h.sublist ((mapDelete_sublist m k).map Prod.fst)

theorem mem_mapSet (m : List (String × β)) (k : String) (v : β)
    (e : String × β) (h : e ∈ mapSet m k v) : e = (k, v) ∨ e ∈ m := by
  induction m with
  | nil => simpa [mapSet] using h
  | cons x rest ih =>
      by_cases hx : x.1 = k
      · rcases (by simpa [mapSet, hx] using h : e = (k, v) ∨ e ∈ rest) with h' | h'
        · exact Or.inl h'
        · exact Or.inr (List.mem_cons_of_mem x h')
      · rcases (by simpa [mapSet, hx] using h : e = x ∨ e ∈ mapSet rest k v) with h' | h'
        · exact Or.inr (h' ▸ List.mem_cons_self x rest)
        · rcases ih h' with h'' | h''
          · exact Or.inl h''
          · exact Or.inr (List.mem_cons_of_mem x h'')

theorem mem_mapDelete (m : List (String × β)) (k : String)
    (e : String × β) (h : e ∈ mapDelete m k) : e ∈ m :=
  (mapDelete_sublist m k).subset h

theorem mapGet_some_mem (m : List (String × β)) (k : String) (v : β)
    (h : mapGet m k = some v) : (k, v) ∈ m := by
  induction m with
  | nil => simp [mapGet] at h
  | cons e rest ih =>
      by_cases he : e.1 = k
      · have hv : v = e.2 := by simpa [mapGet, he] using h.symm
        subst hv
        exact he ▸ List.mem_cons_self e rest
      · exact List.mem_cons_of_mem e (ih (by simpa [mapGet, he] using h))

end MapLemmas

/-- A single upsert-or-skip fold step, the common shape of every snapshot
application in both hooks: each list element either contributes a
key/value pair or is skipped. -/
def upsertStep {α β : Type} (f : α → Option (String × β))
    (m : List (String × β)) (x : α) : List (String × β) :=
  match f x with
  | some kv => mapSet m kv.1 kv.2
  | none => m

section FoldLemmas

variable {α β : Type}

theorem foldl_upsertStep_get_of_not_key (f : α → Option (String × β))
    (xs : List α) (k : String)
    (hxs : ∀ x ∈ xs, ∀ kv, f x = some kv → kv.1 ≠ k)
    (m : List (String × β)) :
    mapGet (xs.foldl (upsertStep f) m) k = mapGet m k := by
  induction xs generalizing m with
  | nil => rfl
  | cons x rest ih =>
      rw [List.foldl_cons,
        ih (fun y hy => hxs y (List.mem_cons_of_mem x hy))]
      unfold upsertStep
      rcases hfx : f x with _ | kv
      · rfl
      · exact mapGet_mapSet_other m kv.1 k kv.2
          (fun hkk => hxs x (List.mem_cons_self x rest) kv hfx (hkk ▸ rfl))

theorem foldl_upsertStep_isSome (f : α → Option (String × β))
    (xs : List α) (k : String) (m : List (String × β))
    (hm : (mapGet m k).isSome) :
    (mapGet (xs.foldl (upsertStep f) m) k).isSome := by
  induction xs generalizing m with
  | nil => exact hm
  | cons x rest ih =>
      rw [List.foldl_cons]
      apply ih
      unfold upsertStep
      rcases hfx : f x with _ | kv
      · exact hm
      · exact mapGet_mapSet_isSome m kv.1 k kv.2 hm

theorem foldl_upsertStep_mem_isSome (f : α → Option (String × β))
    (xs : List α) (x : α) (k : String) (v : β)
    (hx : x ∈ xs) (hfx : f x = some (k, v)) (m : List (String × β)) :
    (mapGet (xs.foldl (upsertStep f) m) k).isSome := by
  induction xs generalizing m with
  | nil => cases hx
  | cons y rest ih =>
      rw [List.foldl_cons]
      rcases List.mem_cons.mp hx with rfl | hmem
      · apply foldl_upsertStep_isSome
        unfold upsertStep
        simp [hfx, mapGet_mapSet_self]
      · exact ih hmem _

end FoldLemmas

/-- Well-formedness of one stored entry: the entity's own identifier
equals its key, and (when required) the key is non-empty. -/
def EntryOk {β : Type} (getKey : β → String) (requireNonempty : Bool)
    (e : String × β) : Prop :=
  getKey e.2 = e.1 ∧ (requireNonempty = true → e.1 ≠ "")

/-- Well-formedness of a whole store: keys are pairwise distinct and every
entry is well formed. -/
def StoreOk {β : Type} (getKey : β → String) (requireNonempty : Bool)
    (m : List (String × β)) : Prop :=
  (mapKeys m).Nodup ∧ ∀ e ∈ m, EntryOk getKey requireNonempty e

section StoreOkLemmas

variable {α β : Type} {getKey : β → String} {b : Bool}

theorem StoreOk.nil : StoreOk getKey b [] :=
  ⟨List.nodup_nil, by simp⟩

theorem StoreOk.set {m : List (String × β)} {k : String} {v : β}
    (h : StoreOk getKey b m) (he : EntryOk getKey b (k, v)) :
    StoreOk getKey b (mapSet m k v) :=
  ⟨nodup_mapSet m k v h.1,
   fun e hm => (mem_mapSet m k v e hm).elim (fun hev => hev ▸ he) (h.2 e)⟩

theorem StoreOk.del {m : List (String × β)} {k : String}
    (h : StoreOk getKey b m) : StoreOk getKey b (mapDelete m k) :=
  ⟨nodup_mapDelete m k h.1, fun e hm => h.2 e (mem_mapDelete m k e hm)⟩

theorem StoreOk.foldl {f : α → Option (String × β)} {xs : List α}
    {m : List (String × β)} (h : StoreOk getKey b m)
    (hf : ∀ x kv, f x = some kv → EntryOk getKey b kv) :
    StoreOk getKey b (xs.foldl (upsertStep f) m) := by
  induction xs generalizing m with
  | nil => exact h
  | cons x rest ih =>
      rw [List.foldl_cons]
      apply ih
      unfold upsertStep
      rcases hfx : f x with _ | kv
      · exact h
      · obtain ⟨k, v⟩ := kv
        exact h.set (hf x (k, v) hfx)

end StoreOkLemmas

namespace P2P

/-- The key/value contribution of one raw peer to a peers snapshot
application: normalized, kept only when the normalized id is truthy. -/
def peerUpsert (peer : RawPeer) : Option (String × NormalizedPeer) :=
  let normalized := normalizePeer peer
  if normalized.id ≠ "" then some (normalized.id, normalized) else none

theorem peerStep_eq :
    (fun (m : List (String × NormalizedPeer)) peer =>
      let normalized := normalizePeer peer
      if normalized.id ≠ "" then mapSet m normalized.id normalized else m)
    = upsertStep peerUpsert := by
  funext m peer
  simp only [upsertStep, peerUpsert]
  by_cases h : (normalizePeer peer).id = "" <;> simp [h]

/-- The whole surface of store-affecting operations of the `useP2P` hook:
an inbound frame, a REST peers fetch, or a `sendChat` call. -/
inductive Op
  | msg (message : P2PMessage)
  | fetch (response : PeersResponse)
  | send (readyState : Option ReadyState) (now : Nat)
      (content : String) (to_ : Option String)

/-- Apply one `useP2P` operation to the state. -/
def applyOp : Op → P2PState → P2PState
  | Op.msg message, s => handleMessage message s
  | Op.fetch response, s => fetchPeers response s
  | Op.send readyState now content to_, s =>
      (sendChat readyState now content to_ s).state

end P2P

namespace Orchestrator

/-- The key/value contribution of one workload to a snapshot
application. -/
def workloadUpsert (w : Workload) : Option (String × Workload) :=
  some (w.id, w)

theorem workloadStep_eq :
    (fun (m : List (String × Workload)) (w : Workload) => mapSet m w.id w)
    = upsertStep workloadUpsert := by
  funext m w
  simp [upsertStep, workloadUpsert]

/-- The key/value contribution of one node to a snapshot application. -/
def nodeUpsert (n : NodeHealth) : Option (String × NodeHealth) :=
  some (n.nodeId, n)

theorem nodeStep_eq :
    (fun (m : List (String × NodeHealth)) (n : NodeHealth) => mapSet m n.nodeId n)
    = upsertStep nodeUpsert := by
  funext m n
  simp [upsertStep, nodeUpsert]

/-- The whole surface of store-affecting operations of the
`useOrchestrator` hook: an inbound frame, the REST collection fetches,
and the imperative commands. -/
inductive Op
  | msg (event : OrchestratorEvent)
  | fetchW (response : FetchResponse Workload)
  | fetchN (response : FetchResponse NodeHealth)
  | cancel (response : CmdResponse) (wsOpen : Bool) (workloadId : String)
  | retry (response : CmdResponse) (wsOpen : Bool) (workloadId : String)
  | create (ok : Bool) (status : Nat) (newWorkload : Workload)

/-- Apply one `useOrchestrator` operation to the state. -/
def applyOp : Op → OrchestratorState → OrchestratorState
  | Op.msg event, s => handleMessage event s
  | Op.fetchW response, s => (fetchWorkloads response s).1
  | Op.fetchN response, s => (fetchNodes response s).1
  | Op.cancel response wsOpen workloadId, s =>
      (cancelWorkload response wsOpen workloadId s).state
  | Op.retry response wsOpen workloadId, s =>
      (retryWorkload response wsOpen workloadId s).state
  | Op.create ok status newWorkload, s =>
      (createWorkload ok status newWorkload s).1

end Orchestrator

/-! ## Concrete example data used by witnesses and counterexamples -/

/-- A normalized peer with the given id and neutral remaining fields. -/
def examplePeer (id : String) : P2P.NormalizedPeer :=
  { id := id, name := "Peer " ++ id, reputation := mkRat 1 2,
    location := none, addresses := [] }

/-- A workload with the given id and status and neutral remaining
fields. -/
def exampleWorkload (id status : String) : Orchestrator.Workload :=
  { id := id, status := status, progress := 50, createdAt := 1700000000 }

/-- A raw peer payload carrying only an id. -/
def exampleRawPeer (id : String) : P2P.RawPeer :=
  { id := some id, peer_id := none, name := none, display_name := none,
    reputation := P2P.RepField.absent, location := none, addresses := none }

/-! ## Claim C3 — sendChat while disconnected -/

/-- A P2P state with a known local identity and an empty message log. -/
def c3State : P2P.P2PState :=
  { connected := false, localPeerId := some "me-peer-id",
    peers := [], messages := [] }

/-- C3 counterexample: with the push channel not open (`wsRef.current` is
null), `sendChat` sends nothing AND appends nothing — the early return at
`useP2P.ts` line 217 fires before the local echo is constructed, so the
state is returned completely unchanged, refuting the claim that the
optimistic echo is still appended. -/
theorem c3_counterexample :
    (P2P.sendChat none 42 "hello" none c3State).sent = []
    ∧ (P2P.sendChat none 42 "hello" none c3State).state = c3State
    ∧ (P2P.sendChat none 42 "hello" none c3State).state.messages.length
        ≠ c3State.messages.length + 1 := by
  decide

/-- C3 (amended): calling `sendChat` while the push channel is not open
sends nothing over the channel and appends nothing (the call is a
complete no-op apart from a logged warning); when the channel is open it
sends the `send_chat` frame and appends the local optimistic echo tagged
with the sender's own identity. -/
theorem c3_send_chat_amended (readyState : Option P2P.ReadyState) (now : Nat)
    (content : String) (to_ : Option String) (s : P2P.P2PState) :
    (readyState ≠ some P2P.ReadyState.OPEN →
       P2P.sendChat readyState now content to_ s = { sent := [], state := s })
    ∧ (P2P.sendChat (some P2P.ReadyState.OPEN) now content to_ s).sent
        = [P2P.OutboundFrame.send_chat content to_]
    ∧ ∃ echo : P2P.ChatMessage,
        (P2P.sendChat (some P2P.ReadyState.OPEN) now content to_ s).state.messages
          = sliceLast s.messages 99 ++ [echo]
        ∧ echo.from_ = s.localPeerId.getD "unknown"
        ∧ echo.content = content := by
  refine ⟨fun h => ?_, ?_, ?_⟩
  · simp [P2P.sendChat, h]
  · simp [P2P.sendChat]
  · refine ⟨{ id := "local-" ++ toString now
              from_ := s.localPeerId.getD "unknown"
              from_name := "Peer-" ++ (s.localPeerId.getD "unknown").take 8 ++ " (you)"
              to_ := if truthyStr to_ then to_ else none
              content := content
              timestamp := now }, ?_, rfl, rfl⟩
    simp [P2P.sendChat]

/-- Witness for `c3_send_chat_amended` at a concrete input: a closed
instance of the not-open branch. -/
theorem c3_send_chat_amended_witness :
    P2P.sendChat (some P2P.ReadyState.CLOSED) 7 "hi" none c3State
      = { sent := [], state := c3State } :=
  (c3_send_chat_amended (some P2P.ReadyState.CLOSED) 7 "hi" none c3State).1
    (by decide)

/-! ## Claim C7 — frames with no findable identifier are dropped -/

/-- C7: for a `peer_joined` or `peer_left` frame in which no identifier is
findable under either candidate path (flat `peer_id` or nested
`data.peer_id` — both missing or empty, i.e. `jsOr` yields nothing),
`handleMessage` leaves the state completely unchanged: no store mutation
occurs.  `handleMessage` is a total function, so the channel is never
aborted by such a frame. -/
theorem c7_no_id_dropped (peer_id dataPeerId : Option String)
    (peer_info dataPeerInfo : Option P2P.RawPeer) (selfPeer : P2P.RawPeer)
    (s : P2P.P2PState) (h : jsOr peer_id dataPeerId = none) :
    P2P.handleMessage
        (P2P.P2PMessage.peer_joined peer_id dataPeerId peer_info dataPeerInfo selfPeer) s
      = s
    ∧ P2P.handleMessage (P2P.P2PMessage.peer_left peer_id dataPeerId) s = s := by
  constructor <;> simp [P2P.handleMessage, h]

/-- Witness for `c7_no_id_dropped`: a frame whose flat identifier is
missing and whose nested identifier is present but empty (falsy) is
dropped. -/
theorem c7_no_id_dropped_witness :
    P2P.handleMessage
        (P2P.P2PMessage.peer_joined none (some "") none none (exampleRawPeer "x"))
        c3State
      = c3State
    ∧ P2P.handleMessage (P2P.P2PMessage.peer_left none (some "")) c3State = c3State :=
  c7_no_id_dropped none (some "") none none (exampleRawPeer "x") c3State (by decide)

/-! ## Claim C9 — reputation range -/

/-- A raw peer payload whose numeric reputation field is 2. -/
def c9RawPeer : P2P.RawPeer :=
  { id := some "abc", peer_id := none, name := none, display_name := none,
    reputation := P2P.RepField.num 2, location := none, addresses := none }

/-- C9 counterexample: `normalizePeer` passes a numeric `reputation` field
through unclamped (`useP2P.ts` line 22), so a raw payload with
`reputation: 2` yields a stored peer whose reputation is 2 ∉ [0,1],
refuting the claim that every normalized peer has reputation in [0,1]. -/
theorem c9_counterexample :
    (P2P.normalizePeer c9RawPeer).reputation = 2
    ∧ ¬ ((P2P.normalizePeer c9RawPeer).reputation ≤ 1) := by
  constructor
  · rfl
  · decide

/-- C9 (amended): the normalized reputation is the raw numeric value
passed through unclamped (bare number or nested `reputation.score`), and
defaults to 0.5 when neither shape provides a number; hence it lies in
[0,1] exactly when every numeric reputation value present in the raw
payload does (in particular always for the default). -/
theorem c9_reputation_amended (peer : P2P.RawPeer)
    (hnum : ∀ v, peer.reputation = P2P.RepField.num v → 0 ≤ v ∧ v ≤ 1)
    (hobj : ∀ v, peer.reputation = P2P.RepField.obj (some v) → 0 ≤ v ∧ v ≤ 1) :
    0 ≤ (P2P.normalizePeer peer).reputation
    ∧ (P2P.normalizePeer peer).reputation ≤ 1 := by
  unfold P2P.normalizePeer
  rcases hrep : peer.reputation with v | score | _
  · simpa using hnum v hrep
  · rcases score with _ | v
    · simp only
      norm_num
    · simpa using hobj v hrep
  · simp only
    norm_num

/-- Witness for `c9_reputation_amended`: a payload with no reputation
field yields the in-range default 0.5. -/
theorem c9_reputation_amended_witness :
    0 ≤ (P2P.normalizePeer (exampleRawPeer "abc")).reputation
    ∧ (P2P.normalizePeer (exampleRawPeer "abc")).reputation ≤ 1 :=
  c9_reputation_amended (exampleRawPeer "abc")
    (fun _ h => nomatch h) (fun _ h => nomatch h)

/-! ## Claim C10 — non-success pull responses -/

/-- C10 counterexample: `fetchPeers` never checks `response.ok`
(`useP2P.ts` lines 59–60 parse the body unconditionally), so a
non-success response whose body parses as a peer array is treated as a
successful snapshot and populates the store, refuting the claim that
every pull-channel collection fetch fails on a non-success status. -/
theorem c10_counterexample :
    (P2P.fetchPeers
        { ok := false, status := 500, body := [exampleRawPeer "abc"] }
        P2P.initialP2PState).peers
      = [("abc", P2P.normalizePeer (exampleRawPeer "abc"))] := by
  decide

/-- C10 (amended): the orchestrator pull fetches (`fetchWorkloads`,
`fetchNodes`) fail on a non-success HTTP status — the store is left
unchanged, the error is recorded in state and rethrown to the caller,
with no built-in retry; the peers fetch (`fetchPeers`) however ignores
the HTTP status entirely (its result does not depend on `ok`/`status`)
and swallows any failure locally. -/
theorem c10_fetch_amended :
    (∀ (response : Orchestrator.FetchResponse Orchestrator.Workload)
       (s : Orchestrator.OrchestratorState), response.ok = false →
         (Orchestrator.fetchWorkloads response s).1.workloads = s.workloads
         ∧ (Orchestrator.fetchWorkloads response s).2
             = some ("Failed to fetch workloads: " ++ toString response.status)
         ∧ (Orchestrator.fetchWorkloads response s).1.error
             = (Orchestrator.fetchWorkloads response s).2)
    ∧ (∀ (response : Orchestrator.FetchResponse Orchestrator.NodeHealth)
       (s : Orchestrator.OrchestratorState), response.ok = false →
         (Orchestrator.fetchNodes response s).1.nodes = s.nodes
         ∧ (Orchestrator.fetchNodes response s).2
             = some ("Failed to fetch nodes: " ++ toString response.status))
    ∧ (∀ (response : P2P.PeersResponse) (s : P2P.P2PState),
         P2P.fetchPeers response s
           = P2P.fetchPeers { response with ok := true, status := 200 } s) := by
  refine ⟨fun response s h => ?_, fun response s h => ?_, fun response s => ?_⟩
  · simp [Orchestrator.fetchWorkloads, h]
  · simp [Orchestrator.fetchNodes, h]
  · rfl

/-- Witness for `c10_fetch_amended` at concrete inputs. -/
theorem c10_fetch_amended_witness :
    (Orchestrator.fetchWorkloads
        { ok := false, status := 404, body := Orchestrator.JsonListBody.arr [] }
        Orchestrator.initialOrchestratorState).1.workloads
      = Orchestrator.initialOrchestratorState.workloads
    ∧ (Orchestrator.fetchWorkloads
        { ok := false, status := 404, body := Orchestrator.JsonListBody.arr [] }
        Orchestrator.initialOrchestratorState).2
      = some ("Failed to fetch workloads: " ++ toString 404) :=
  ⟨((c10_fetch_amended.1
      { ok := false, status := 404, body := Orchestrator.JsonListBody.arr [] }
      Orchestrator.initialOrchestratorState) rfl).1,
   ((c10_fetch_amended.1
      { ok := false, status := 404, body := Orchestrator.JsonListBody.arr [] }
      Orchestrator.initialOrchestratorState) rfl).2.1⟩

/-! ## Claim C2 — imperative commands and optimistic updates -/

/-- A workloads store holding one running workload `w1`. -/
def c2State : Orchestrator.OrchestratorState :=
  { connected := true, loading := false, error := none,
    workloads := [("w1", exampleWorkload "w1" "running")],
    nodes := [], clusterMetrics := none }

/-- C2 counterexample: in `cancelWorkload` the local update follows the
awaited REST resolution (the first two events of the trace are the call
and its resolution, with the store update strictly later), and when the
REST call fails the store is not mutated at all — the workload keeps
status `running` instead of the claimed already-applied `cancelled`.
This refutes both halves of the claim (update applied before resolution;
optimistic mutation left in place on failure). -/
theorem c2_counterexample :
    (Orchestrator.cancelWorkloadTrace true).take 2
      = [Orchestrator.CmdEvent.restCall, Orchestrator.CmdEvent.restResolve true]
    ∧ Orchestrator.CmdEvent.storeUpdate ∉ (Orchestrator.cancelWorkloadTrace true).take 2
    ∧ (Orchestrator.cancelWorkload { ok := false, status := 500 } true "w1" c2State).state.workloads
        = c2State.workloads
    ∧ mapGet (Orchestrator.cancelWorkload { ok := false, status := 500 } true "w1" c2State).state.workloads "w1"
        ≠ some { exampleWorkload "w1" "running" with status := "cancelled" } := by
  decide

/-- C2 (amended): the local store update of `cancelWorkload` and
`retryWorkload` is applied only AFTER the REST call resolves
successfully (in program order: call, resolution, store update, then the
WebSocket notification); if the REST call fails, the command records the
error in state and rethrows it to the caller, and the store is left
unmodified (there is no optimistic mutation to roll back). -/
theorem c2_commands_amended (response : Orchestrator.CmdResponse)
    (wsOpen : Bool) (workloadId : String)
    (s : Orchestrator.OrchestratorState) :
    (response.ok = false →
       (Orchestrator.cancelWorkload response wsOpen workloadId s).state.workloads
           = s.workloads
       ∧ (Orchestrator.cancelWorkload response wsOpen workloadId s).thrown.isSome
       ∧ (Orchestrator.cancelWorkload response wsOpen workloadId s).state.error.isSome
       ∧ (Orchestrator.retryWorkload response wsOpen workloadId s).state.workloads
           = s.workloads
       ∧ (Orchestrator.retryWorkload response wsOpen workloadId s).thrown.isSome)
    ∧ (response.ok = true → ∀ w, mapGet s.workloads workloadId = some w →
       mapGet (Orchestrator.cancelWorkload response wsOpen workloadId s).state.workloads
           workloadId
         = some { w with status := "cancelled" }
       ∧ mapGet (Orchestrator.retryWorkload response wsOpen workloadId s).state.workloads
           workloadId
         = some { w with status := "pending", progress := 0 }
       ∧ (Orchestrator.cancelWorkload response wsOpen workloadId s).thrown = none)
    ∧ Orchestrator.cancelWorkloadTrace true
        = [Orchestrator.CmdEvent.restCall, Orchestrator.CmdEvent.restResolve true,
           Orchestrator.CmdEvent.storeUpdate, Orchestrator.CmdEvent.wsNotify]
    ∧ Orchestrator.retryWorkloadTrace true
        = [Orchestrator.CmdEvent.restCall, Orchestrator.CmdEvent.restResolve true,
           Orchestrator.CmdEvent.storeUpdate, Orchestrator.CmdEvent.wsNotify]
    ∧ Orchestrator.CmdEvent.storeUpdate ∉ Orchestrator.cancelWorkloadTrace false
    ∧ Orchestrator.CmdEvent.storeUpdate ∉ Orchestrator.retryWorkloadTrace false := by
  refine ⟨fun h => ?_, fun h w hw => ?_, by decide, by decide, by decide, by decide⟩
  · have hok : response.ok = false := h
    constructor
    · simp [Orchestrator.cancelWorkload, hok]
    constructor
    · simp [Orchestrator.cancelWorkload, hok]
    constructor
    · simp [Orchestrator.cancelWorkload, hok]
    constructor
    · simp [Orchestrator.retryWorkload, hok]
    · simp [Orchestrator.retryWorkload, hok]
  · refine ⟨?_, ?_, ?_⟩
    · simp [Orchestrator.cancelWorkload, h, hw, mapGet_mapSet_self]
    · simp [Orchestrator.retryWorkload, h, hw, mapGet_mapSet_self]
    · simp [Orchestrator.cancelWorkload, h]

/-- Witness for `c2_commands_amended` at concrete inputs: the success
branch on a store holding `w1`. -/
theorem c2_commands_amended_witness :
    mapGet (Orchestrator.cancelWorkload { ok := true, status := 200 } true "w1" c2State).state.workloads "w1"
      = some { exampleWorkload "w1" "running" with status := "cancelled" }
    ∧ mapGet (Orchestrator.retryWorkload { ok := true, status := 200 } true "w1" c2State).state.workloads "w1"
      = some { exampleWorkload "w1" "running" with status := "pending", progress := 0 } :=
  ⟨((c2_commands_amended { ok := true, status := 200 } true "w1" c2State).2.1
      rfl (exampleWorkload "w1" "running") (by decide)).1,
   ((c2_commands_amended { ok := true, status := 200 } true "w1" c2State).2.1
      rfl (exampleWorkload "w1" "running") (by decide)).2.1⟩

/-! ## Claim C1 — snapshot application semantics -/

/-- The key of a successful `peerUpsert` is the normalized id, the value
the normalized peer, and the key is non-empty. -/
theorem peerUpsert_eq_some (peer : P2P.RawPeer) (kv : String × P2P.NormalizedPeer)
    (h : P2P.peerUpsert peer = some kv) :
    kv.1 = (P2P.normalizePeer peer).id ∧ kv.2 = P2P.normalizePeer peer
    ∧ kv.1 ≠ "" := by
  unfold P2P.peerUpsert at h
  by_cases hid : (P2P.normalizePeer peer).id = ""
  · simp [hid] at h
  · simp only [ne_eq, hid, not_false_eq_true, if_true, Option.some.injEq] at h
    rw [← h]
    exact ⟨rfl, rfl, hid⟩

/-- A prior P2P state holding one peer `old`. -/
def c1PriorState : P2P.P2PState :=
  { connected := true, localPeerId := none,
    peers := [("old", examplePeer "old")], messages := [] }

/-- C1 counterexample: the REST snapshot path (`fetchPeers`) builds a NEW
map starting from empty (`useP2P.ts` line 64), so applying an empty
fetched snapshot to a store holding peer `old` REMOVES that
pre-existing entity — refuting the claim that merging any fetched
snapshot leaves every pre-existing entity whose identifier is absent
from the snapshot present. -/
theorem c1_counterexample :
    mapGet c1PriorState.peers "old" = some (examplePeer "old")
    ∧ (P2P.fetchPeers { ok := true, status := 200, body := [] } c1PriorState).peers = []
    ∧ mapGet (P2P.fetchPeers { ok := true, status := 200, body := [] } c1PriorState).peers "old"
        = none := by
  decide

/-- C1 (amended): PUSHED collection snapshots (`peers_list`,
`workload_list` frames) merge additively into the existing store — every
snapshot entity (with a truthy id, for peers) is present afterwards, and
every pre-existing entry whose identifier is absent from the snapshot is
preserved unchanged.  FETCHED (REST) snapshots are instead a full
replace: the resulting store is independent of the prior content, and
pre-existing entries whose identifier is absent from the snapshot are
removed. -/
theorem c1_snapshot_amended :
    (∀ peers dataPeers (s : P2P.P2PState) k v,
        mapGet s.peers k = some v →
        (∀ peer ∈ (jsOrOpt peers dataPeers).getD [], (P2P.normalizePeer peer).id ≠ k) →
        mapGet (P2P.handleMessage (P2P.P2PMessage.peers_list peers dataPeers) s).peers k
          = some v)
    ∧ (∀ peers dataPeers (s : P2P.P2PState) peer,
        peer ∈ (jsOrOpt peers dataPeers).getD [] →
        (P2P.normalizePeer peer).id ≠ "" →
        (mapGet (P2P.handleMessage (P2P.P2PMessage.peers_list peers dataPeers) s).peers
            (P2P.normalizePeer peer).id).isSome)
    ∧ (∀ data (s : Orchestrator.OrchestratorState) k v,
        mapGet s.workloads k = some v →
        (∀ w ∈ data.getD [], w.id ≠ k) →
        mapGet (Orchestrator.handleMessage
            (Orchestrator.OrchestratorEvent.workload_list data) s).workloads k
          = some v)
    ∧ (∀ data (s : Orchestrator.OrchestratorState) w,
        w ∈ data.getD [] →
        (mapGet (Orchestrator.handleMessage
            (Orchestrator.OrchestratorEvent.workload_list data) s).workloads w.id).isSome)
    ∧ (∀ (response : P2P.PeersResponse) (s s' : P2P.P2PState),
        (P2P.fetchPeers response s).peers = (P2P.fetchPeers response s').peers)
    ∧ (∀ (response : Orchestrator.FetchResponse Orchestrator.Workload)
         (s : Orchestrator.OrchestratorState) k,
        response.ok = true →
        (∀ w ∈ response.body.extract, w.id ≠ k) →
        mapGet (Orchestrator.fetchWorkloads response s).1.workloads k = none) := by
  refine ⟨?_, ?_, ?_, ?_, fun response s s' => rfl, ?_⟩
  · intro peers dataPeers s k v hv hno
    simp only [P2P.handleMessage]
    rw [P2P.peerStep_eq,
      foldl_upsertStep_get_of_not_key P2P.peerUpsert _ k
        (fun peer hpeer kv hkv =>
          (peerUpsert_eq_some peer kv hkv).1 ▸ hno peer hpeer)]
    exact hv
  · intro peers dataPeers s peer hpeer hid
    simp only [P2P.handleMessage]
    rw [P2P.peerStep_eq]
    exact foldl_upsertStep_mem_isSome P2P.peerUpsert _ peer _ (P2P.normalizePeer peer)
      hpeer (by simp [P2P.peerUpsert, hid]) s.peers
  · intro data s k v hv hno
    simp only [Orchestrator.handleMessage]
    rw [Orchestrator.workloadStep_eq,
      foldl_upsertStep_get_of_not_key Orchestrator.workloadUpsert _ k
        (fun w hw kv hkv => by
          simp only [Orchestrator.workloadUpsert, Option.some.injEq] at hkv
          exact hkv ▸ hno w hw)]
    exact hv
  · intro data s w hw
    simp only [Orchestrator.handleMessage]
    rw [Orchestrator.workloadStep_eq]
    exact foldl_upsertStep_mem_isSome Orchestrator.workloadUpsert _ w _ w hw rfl s.workloads
  · intro response s k hok hno
    simp only [Orchestrator.fetchWorkloads, hok, if_true]
    rw [Orchestrator.workloadStep_eq,
      foldl_upsertStep_get_of_not_key Orchestrator.workloadUpsert _ k
        (fun w hw kv hkv => by
          simp only [Orchestrator.workloadUpsert, Option.some.injEq] at hkv
          exact hkv ▸ hno w hw)]
    rfl

/-- Witness for `c1_snapshot_amended` at concrete inputs: a pushed
snapshot containing only `new` preserves the pre-existing peer `old`, and
a fetched workload snapshot containing only `w2` removes the pre-existing
workload `w1`. -/
theorem c1_snapshot_amended_witness :
    mapGet (P2P.handleMessage
        (P2P.P2PMessage.peers_list (some [exampleRawPeer "new"]) none)
        c1PriorState).peers "old"
      = some (examplePeer "old")
    ∧ mapGet (Orchestrator.fetchWorkloads
        { ok := true, status := 200,
          body := Orchestrator.JsonListBody.arr [exampleWorkload "w2" "pending"] }
        c2State).1.workloads "w1"
      = none :=
  ⟨c1_snapshot_amended.1 (some [exampleRawPeer "new"]) none c1PriorState
      "old" (examplePeer "old") (by decide) (by decide),
   c1_snapshot_amended.2.2.2.2.2
      { ok := true, status := 200,
        body := Orchestrator.JsonListBody.arr [exampleWorkload "w2" "pending"] }
      c2State "w1" rfl (by decide)⟩

/-! ## Claim C5 — exponential backoff schedule -/

/-- C5: when the k-th consecutive abnormal close arrives (the attempt
counter stands at k−1, with 1 ≤ k ≤ ceiling) with a non-clean close code,
`onClose` increments the counter to k and schedules the k-th reconnect
attempt after `reconnectInterval × 2^(k−1)` milliseconds; a successful
open resets the counter to zero. -/
theorem c5_backoff_delay (cfg : Conn.ConnConfig) (k code : Nat)
    (hk1 : 1 ≤ k) (hk2 : k ≤ cfg.maxReconnectAttempts) (hcode : code ≠ 1000)
    (s : Conn.ConnState) (hs : s.reconnectAttempts = k - 1) :
    (Conn.onClose cfg code s).reconnectTimer
      = some (cfg.reconnectInterval * 2 ^ (k - 1))
    ∧ (Conn.onClose cfg code s).reconnectAttempts = k
    ∧ (Conn.onOpen s).reconnectAttempts = 0 := by
  have hlt : k - 1 < cfg.maxReconnectAttempts := by omega
  have hsum : k - 1 + 1 = k := by omega
  refine ⟨?_, ?_, rfl⟩ <;>
    simp [Conn.onClose, hs, hcode, hlt, hsum]

/-- A connection state with one consecutive failure recorded. -/
def c5State : Conn.ConnState :=
  { Conn.initialConnState with reconnectAttempts := 1 }

/-- Witness for `c5_backoff_delay` at the default configuration: the
second consecutive abnormal close schedules the second attempt after
3000 × 2 = 6000 ms. -/
theorem c5_backoff_delay_witness :
    (Conn.onClose Conn.defaultConfig 1006 c5State).reconnectTimer = some 6000
    ∧ (Conn.onClose Conn.defaultConfig 1006 c5State).reconnectAttempts = 2
    ∧ (Conn.onOpen c5State).reconnectAttempts = 0 := by
  have h := c5_backoff_delay Conn.defaultConfig 2 1006 (by decide) (by decide)
    (by decide) c5State rfl
  exact ⟨by rw [h.1]; rfl, h.2.1, h.2.2⟩

/-! ## Claim C6 — disconnect cancels a scheduled reconnect -/

/-- One post-disconnect step on a state with no pending timer makes no
connection attempt and leaves no pending timer, for any `connect`
implementation: a cancelled timer never fires, and the delivery of the
clean close requested by `disconnect` (code 1000) schedules nothing. -/
theorem postStep_of_timer_none (cfg : Conn.ConnConfig)
    (connectFn : Conn.ConnState → Conn.ConnState × Conn.ConnectOutcome)
    (step : Conn.PostStep) (s : Conn.ConnState)
    (hs : s.reconnectTimer = none) :
    (Conn.postStep cfg connectFn step s).2 = false
    ∧ (Conn.postStep cfg connectFn step s).1.reconnectTimer = none := by
  cases step
  · simp [Conn.postStep, hs]
  · constructor
    · rfl
    · simp [Conn.postStep, Conn.onClose, hs]

/-- No sequence of post-disconnect steps starting from a state with no
pending timer ever makes a connection attempt. -/
theorem runPost_no_attempt (cfg : Conn.ConnConfig)
    (connectFn : Conn.ConnState → Conn.ConnState × Conn.ConnectOutcome)
    (steps : List Conn.PostStep) (s : Conn.ConnState)
    (hs : s.reconnectTimer = none) :
    (Conn.runPost cfg connectFn steps s).2 = false := by
  induction steps generalizing s with
  | nil => rfl
  | cons step rest ih =>
      have h := postStep_of_timer_none cfg connectFn step s hs
      simp [Conn.runPost, h.1, ih _ h.2]

/-- C6: `disconnect()` cancels any pending reconnect timer, resets the
reconnect budget to zero, and requests a clean close (code 1000) of the
live socket; afterwards no connection attempt ever occurs, no matter how
much time elapses (any sequence of timer deadlines passing and the
requested clean close being delivered), for both hooks' `connect`
implementations. -/
theorem c6_disconnect_cancels (cfg : Conn.ConnConfig) (s : Conn.ConnState)
    (steps : List Conn.PostStep) (h : s.ws.isSome) :
    (Conn.disconnect s).1.reconnectTimer = none
    ∧ (Conn.disconnect s).1.reconnectAttempts = 0
    ∧ (Conn.disconnect s).2 = some 1000
    ∧ (Conn.runPost cfg (Conn.connectP2P cfg) steps (Conn.disconnect s).1).2 = false
    ∧ (Conn.runPost cfg (Conn.connectOrch cfg) steps (Conn.disconnect s).1).2 = false := by
  refine ⟨rfl, rfl, ?_, ?_, ?_⟩
  · obtain ⟨w, hw⟩ := Option.isSome_iff_exists.mp h
    simp [Conn.disconnect, hw]
  · exact runPost_no_attempt _ _ _ _ rfl
  · exact runPost_no_attempt _ _ _ _ rfl

/-- A connection state with a live socket and a reconnect scheduled. -/
def c6State : Conn.ConnState :=
  { ws := some P2P.ReadyState.OPEN, reconnectTimer := some 3000,
    reconnectAttempts := 2, isConnecting := false, connected := true,
    error := none }

/-- Witness for `c6_disconnect_cancels`: disconnecting while a reconnect
is scheduled, then letting the timer deadline pass twice around the clean
close delivery, yields no connection attempt. -/
theorem c6_disconnect_cancels_witness :
    (Conn.disconnect c6State).1.reconnectTimer = none
    ∧ (Conn.disconnect c6State).1.reconnectAttempts = 0
    ∧ (Conn.disconnect c6State).2 = some 1000
    ∧ (Conn.runPost Conn.defaultConfig (Conn.connectP2P Conn.defaultConfig)
        [Conn.PostStep.fire, Conn.PostStep.cleanClose, Conn.PostStep.fire]
        (Conn.disconnect c6State).1).2 = false
    ∧ (Conn.runPost Conn.defaultConfig (Conn.connectOrch Conn.defaultConfig)
        [Conn.PostStep.fire, Conn.PostStep.cleanClose, Conn.PostStep.fire]
        (Conn.disconnect c6State).1).2 = false :=
  c6_disconnect_cancels Conn.defaultConfig c6State
    [Conn.PostStep.fire, Conn.PostStep.cleanClose, Conn.PostStep.fire] rfl

/-! ## Claim C4 — exhausted reconnect budget -/

/-- With no connect in flight and no socket, a below-ceiling `connect`
of the P2P hook takes the attempted branch. -/
theorem connectP2P_attempted (cfg : Conn.ConnConfig) (s : Conn.ConnState)
    (h2 : s.isConnecting = false) (h3 : s.ws = none)
    (hlt : s.reconnectAttempts < cfg.maxReconnectAttempts) :
    Conn.connectP2P cfg s
      = ({ s with isConnecting := true, ws := some P2P.ReadyState.CONNECTING },
         Conn.ConnectOutcome.attempted) := by
  unfold Conn.connectP2P
  rw [if_neg (by simp [h2]), if_neg (by simp [h3]), if_neg (by simp [h3]),
    if_neg (Nat.not_le.mpr hlt)]

/-- With no connect in flight and no socket, a below-ceiling `connect`
of the orchestrator hook takes the attempted branch. -/
theorem connectOrch_attempted (cfg : Conn.ConnConfig) (s : Conn.ConnState)
    (h2 : s.isConnecting = false) (h3 : s.ws = none)
    (hlt : s.reconnectAttempts < cfg.maxReconnectAttempts) :
    Conn.connectOrch cfg s
      = ({ s with isConnecting := true, ws := some P2P.ReadyState.CONNECTING,
                  error := none },
         Conn.ConnectOutcome.attempted) := by
  unfold Conn.connectOrch
  rw [if_neg (by simp [h2]), if_neg (by simp [h3]), if_neg (by simp [h3]),
    if_neg (Nat.not_le.mpr hlt)]

/-- One round of connect-then-abnormal-close below the ceiling increments
the P2P attempt counter and returns to the no-socket idle shape. -/
theorem abnormalCycleP2P_step (cfg : Conn.ConnConfig) (s : Conn.ConnState)
    (h2 : s.isConnecting = false) (h3 : s.ws = none)
    (hlt : s.reconnectAttempts < cfg.maxReconnectAttempts) :
    (Conn.abnormalCycleP2P cfg s).reconnectAttempts = s.reconnectAttempts + 1
    ∧ (Conn.abnormalCycleP2P cfg s).isConnecting = false
    ∧ (Conn.abnormalCycleP2P cfg s).ws = none := by
  unfold Conn.abnormalCycleP2P
  rw [connectP2P_attempted cfg s h2 h3 hlt]
  simp [Conn.onClose, hlt]

/-- One round of connect-then-abnormal-close below the ceiling increments
the orchestrator attempt counter and returns to the no-socket idle
shape. -/
theorem abnormalCycleOrch_step (cfg : Conn.ConnConfig) (s : Conn.ConnState)
    (h2 : s.isConnecting = false) (h3 : s.ws = none)
    (hlt : s.reconnectAttempts < cfg.maxReconnectAttempts) :
    (Conn.abnormalCycleOrch cfg s).reconnectAttempts = s.reconnectAttempts + 1
    ∧ (Conn.abnormalCycleOrch cfg s).isConnecting = false
    ∧ (Conn.abnormalCycleOrch cfg s).ws = none := by
  unfold Conn.abnormalCycleOrch
  rw [connectOrch_attempted cfg s h2 h3 hlt]
  simp [Conn.onClose, hlt]

/-- After j ≤ ceiling rounds of connect-then-abnormal-close starting from
the initial state, the P2P hook's attempt counter stands at j with no
socket and no connect in flight. -/
theorem abnormalCycles_p2p (cfg : Conn.ConnConfig) :
    ∀ j, j ≤ cfg.maxReconnectAttempts →
      ((Conn.abnormalCycleP2P cfg)^[j] Conn.initialConnState).reconnectAttempts = j
      ∧ ((Conn.abnormalCycleP2P cfg)^[j] Conn.initialConnState).isConnecting = false
      ∧ ((Conn.abnormalCycleP2P cfg)^[j] Conn.initialConnState).ws = none := by
  intro j
  induction j with
  | zero => exact fun _ => ⟨rfl, rfl, rfl⟩
  | succ n ih =>
      intro hle
      obtain ⟨h1, h2, h3⟩ := ih (Nat.le_of_succ_le hle)
      rw [Function.iterate_succ_apply']
      obtain ⟨g1, g2, g3⟩ :=
        abnormalCycleP2P_step cfg _ h2 h3 (by omega)
      exact ⟨by rw [g1, h1], g2, g3⟩

/-- After j ≤ ceiling rounds of connect-then-abnormal-close starting from
the initial state, the orchestrator hook's attempt counter stands at j
with no socket and no connect in flight. -/
theorem abnormalCycles_orch (cfg : Conn.ConnConfig) :
    ∀ j, j ≤ cfg.maxReconnectAttempts →
      ((Conn.abnormalCycleOrch cfg)^[j] Conn.initialConnState).reconnectAttempts = j
      ∧ ((Conn.abnormalCycleOrch cfg)^[j] Conn.initialConnState).isConnecting = false
      ∧ ((Conn.abnormalCycleOrch cfg)^[j] Conn.initialConnState).ws = none := by
  intro j
  induction j with
  | zero => exact fun _ => ⟨rfl, rfl, rfl⟩
  | succ n ih =>
      intro hle
      obtain ⟨h1, h2, h3⟩ := ih (Nat.le_of_succ_le hle)
      rw [Function.iterate_succ_apply']
      obtain ⟨g1, g2, g3⟩ :=
        abnormalCycleOrch_step cfg _ h2 h3 (by omega)
      exact ⟨by rw [g1, h1], g2, g3⟩

/-- With no connect in flight and no socket, a `connect` of the P2P hook
at or above the ceiling refuses without any state change. -/
theorem connectP2P_exhausted (cfg : Conn.ConnConfig) (s : Conn.ConnState)
    (h2 : s.isConnecting = false) (h3 : s.ws = none)
    (hge : s.reconnectAttempts ≥ cfg.maxReconnectAttempts) :
    Conn.connectP2P cfg s = (s, Conn.ConnectOutcome.exhausted) := by
  unfold Conn.connectP2P
  rw [if_neg (by simp [h2]), if_neg (by simp [h3]), if_neg (by simp [h3]),
    if_pos hge]

/-- With no connect in flight and no socket, a `connect` of the
orchestrator hook at or above the ceiling refuses and records the
terminal error. -/
theorem connectOrch_exhausted (cfg : Conn.ConnConfig) (s : Conn.ConnState)
    (h2 : s.isConnecting = false) (h3 : s.ws = none)
    (hge : s.reconnectAttempts ≥ cfg.maxReconnectAttempts) :
    Conn.connectOrch cfg s
      = ({ s with connected := false,
                  error := some ("Connection failed after "
                    ++ toString cfg.maxReconnectAttempts
                    ++ " attempts. Server may be unavailable.") },
         Conn.ConnectOutcome.exhausted) := by
  unfold Conn.connectOrch
  rw [if_neg (by simp [h2]), if_neg (by simp [h3]), if_neg (by simp [h3]),
    if_pos hge]

/-- C4: after a number of consecutive abnormal closes equal to the
configured ceiling, a subsequent `connect()` makes no new connection
attempt: the P2P hook returns after a warning with the state untouched,
and the orchestrator hook additionally records the terminal
`Connection failed after N attempts` error in its state; in neither hook
is a socket constructed. -/
theorem c4_connect_exhausted (cfg : Conn.ConnConfig) :
    (Conn.connectP2P cfg
        ((Conn.abnormalCycleP2P cfg)^[cfg.maxReconnectAttempts] Conn.initialConnState)).2
      = Conn.ConnectOutcome.exhausted
    ∧ (Conn.connectP2P cfg
        ((Conn.abnormalCycleP2P cfg)^[cfg.maxReconnectAttempts] Conn.initialConnState)).1
      = (Conn.abnormalCycleP2P cfg)^[cfg.maxReconnectAttempts] Conn.initialConnState
    ∧ (Conn.connectOrch cfg
        ((Conn.abnormalCycleOrch cfg)^[cfg.maxReconnectAttempts] Conn.initialConnState)).2
      = Conn.ConnectOutcome.exhausted
    ∧ ((Conn.connectOrch cfg
        ((Conn.abnormalCycleOrch cfg)^[cfg.maxReconnectAttempts] Conn.initialConnState)).1.error).isSome
    ∧ (Conn.connectOrch cfg
        ((Conn.abnormalCycleOrch cfg)^[cfg.maxReconnectAttempts] Conn.initialConnState)).1.ws
      = none := by
  obtain ⟨hp1, hp2, hp3⟩ :=
    abnormalCycles_p2p cfg cfg.maxReconnectAttempts (Nat.le_refl _)
  obtain ⟨ho1, ho2, ho3⟩ :=
    abnormalCycles_orch cfg cfg.maxReconnectAttempts (Nat.le_refl _)
  rw [connectP2P_exhausted cfg _ hp2 hp3 (by omega),
    connectOrch_exhausted cfg _ ho2 ho3 (by omega)]
  exact ⟨rfl, rfl, rfl, rfl, ho3⟩

/-! ## Claim C8 — store invariants under all operations -/

/-- A truthy `||`-chain result is never the empty string. -/
theorem truthyStr_some (a : Option String) (s : String)
    (ha : truthyStr a = true) (h : a = some s) : s ≠ "" := by
  subst h
  simpa [truthyStr] using ha

/-- An identifier found by `jsOr` is never the empty string. -/
theorem jsOr_ne_empty (a b : Option String) (s : String)
    (h : jsOr a b = some s) : s ≠ "" := by
  unfold jsOr at h
  by_cases h1 : truthyStr a = true
  · rw [if_pos h1] at h
    exact truthyStr_some a s h1 h
  · rw [if_neg h1] at h
    by_cases h2 : truthyStr b = true
    · rw [if_pos h2] at h
      exact truthyStr_some b s h2 h
    · rw [if_neg h2] at h
      cases h

/-- Overriding the payload id with a non-empty `peerId`
(`normalizePeer({ ...peerInfo, id: peerId })`) makes the normalized id
that `peerId`. -/
theorem normalizePeer_id_override (peer : P2P.RawPeer) (peerId : String)
    (h : peerId ≠ "") :
    (P2P.normalizePeer { peer with id := some peerId }).id = peerId := by
  simp [P2P.normalizePeer, jsOrStr, jsOr, truthyStr, h]

/-- Every `useP2P` operation preserves well-formedness of the peers
store: distinct keys, each stored peer's id equal to its key and
non-empty. -/
theorem p2p_applyOp_storeOk (op : P2P.Op) (s : P2P.P2PState)
    (h : StoreOk P2P.NormalizedPeer.id true s.peers) :
    StoreOk P2P.NormalizedPeer.id true (P2P.applyOp op s).peers := by
  cases op with
  | msg message =>
      cases message with
      | peers_list peers dataPeers =>
          simp only [P2P.applyOp, P2P.handleMessage]
          rw [P2P.peerStep_eq]
          refine h.foldl (fun peer kv hkv => ?_)
          obtain ⟨h1, h2, h3⟩ := peerUpsert_eq_some peer kv hkv
          exact ⟨by rw [h2, h1], fun _ => h3⟩
      | peer_joined pid dpid pinfo dpinfo selfPeer =>
          simp only [P2P.applyOp, P2P.handleMessage]
          rcases hjs : jsOr pid dpid with _ | peerId
          · exact h
          · have hne := jsOr_ne_empty pid dpid peerId hjs
            exact h.set ⟨normalizePeer_id_override _ peerId hne, fun _ => hne⟩
      | peer_left pid dpid =>
          simp only [P2P.applyOp, P2P.handleMessage]
          rcases jsOr pid dpid with _ | peerId
          · exact h
          · exact h.del
      | chat_message data selfMsg => exact h
      | other t => exact h
  | fetch response =>
      simp only [P2P.applyOp, P2P.fetchPeers]
      rw [P2P.peerStep_eq]
      refine StoreOk.nil.foldl (fun peer kv hkv => ?_)
      obtain ⟨h1, h2, h3⟩ := peerUpsert_eq_some peer kv hkv
      exact ⟨by rw [h2, h1], fun _ => h3⟩
  | send readyState now content to_ =>
      have hp : (P2P.sendChat readyState now content to_ s).state.peers = s.peers := by
        unfold P2P.sendChat
        split <;> rfl
      simp only [P2P.applyOp]
      rw [hp]
      exact h

/-- Every `useOrchestrator` operation preserves well-formedness of the
workloads and nodes stores: distinct keys and each stored entity's
identifier equal to its key (emptiness is NOT enforced by these
handlers). -/
theorem orch_applyOp_storeOk (op : Orchestrator.Op)
    (s : Orchestrator.OrchestratorState)
    (hw : StoreOk Orchestrator.Workload.id false s.workloads)
    (hn : StoreOk Orchestrator.NodeHealth.nodeId false s.nodes) :
    StoreOk Orchestrator.Workload.id false (Orchestrator.applyOp op s).workloads
    ∧ StoreOk Orchestrator.NodeHealth.nodeId false (Orchestrator.applyOp op s).nodes := by
  have hfW : ∀ (w : Orchestrator.Workload) kv,
      Orchestrator.workloadUpsert w = some kv →
      EntryOk Orchestrator.Workload.id false kv := by
    intro w kv hkv
    simp only [Orchestrator.workloadUpsert, Option.some.injEq] at hkv
    exact hkv ▸ ⟨rfl, fun hf => nomatch hf⟩
  have hfN : ∀ (n : Orchestrator.NodeHealth) kv,
      Orchestrator.nodeUpsert n = some kv →
      EntryOk Orchestrator.NodeHealth.nodeId false kv := by
    intro n kv hkv
    simp only [Orchestrator.nodeUpsert, Option.some.injEq] at hkv
    exact hkv ▸ ⟨rfl, fun hf => nomatch hf⟩
  cases op with
  | msg event =>
      cases event with
      | workload_list data =>
          simp only [Orchestrator.applyOp, Orchestrator.handleMessage]
          rw [Orchestrator.workloadStep_eq]
          exact ⟨hw.foldl hfW, hn⟩
      | workload_created w =>
          exact ⟨hw.set ⟨rfl, fun hf => nomatch hf⟩, hn⟩
      | workload_updated w =>
          exact ⟨hw.set ⟨rfl, fun hf => nomatch hf⟩, hn⟩
      | workload_completed w =>
          exact ⟨hw.set ⟨rfl, fun hf => nomatch hf⟩, hn⟩
      | workload_failed w =>
          exact ⟨hw.set ⟨rfl, fun hf => nomatch hf⟩, hn⟩
      | node_list data =>
          simp only [Orchestrator.applyOp, Orchestrator.handleMessage]
          rw [Orchestrator.nodeStep_eq]
          exact ⟨hw, hn.foldl hfN⟩
      | node_status n =>
          exact ⟨hw, hn.set ⟨rfl, fun hf => nomatch hf⟩⟩
      | node_joined n =>
          exact ⟨hw, hn.set ⟨rfl, fun hf => nomatch hf⟩⟩
      | node_left nodeId =>
          exact ⟨hw, hn.del⟩
      | cluster_metrics metrics => exact ⟨hw, hn⟩
      | other t => exact ⟨hw, hn⟩
  | fetchW response =>
      simp only [Orchestrator.applyOp, Orchestrator.fetchWorkloads]
      by_cases hok : response.ok = true
      · rw [if_pos hok]
        simp only
        rw [Orchestrator.workloadStep_eq]
        exact ⟨StoreOk.nil.foldl hfW, hn⟩
      · rw [if_neg hok]
        exact ⟨hw, hn⟩
  | fetchN response =>
      simp only [Orchestrator.applyOp, Orchestrator.fetchNodes]
      by_cases hok : response.ok = true
      · rw [if_pos hok]
        simp only
        rw [Orchestrator.nodeStep_eq]
        exact ⟨hw, StoreOk.nil.foldl hfN⟩
      · rw [if_neg hok]
        exact ⟨hw, hn⟩
  | cancel response wsOpen workloadId =>
      simp only [Orchestrator.applyOp, Orchestrator.cancelWorkload]
      by_cases hok : response.ok = true
      · rw [if_pos hok]
        rcases hget : mapGet s.workloads workloadId with _ | w
        · simpa using ⟨hw, hn⟩
        · have hid : w.id = workloadId :=
            (hw.2 (workloadId, w) (mapGet_some_mem s.workloads workloadId w hget)).1
          simp only
          exact ⟨hw.set ⟨hid, fun hf => nomatch hf⟩, hn⟩
      · rw [if_neg hok]
        exact ⟨hw, hn⟩
  | retry response wsOpen workloadId =>
      simp only [Orchestrator.applyOp, Orchestrator.retryWorkload]
      by_cases hok : response.ok = true
      · rw [if_pos hok]
        rcases hget : mapGet s.workloads workloadId with _ | w
        · simpa using ⟨hw, hn⟩
        · have hid : w.id = workloadId :=
            (hw.2 (workloadId, w) (mapGet_some_mem s.workloads workloadId w hget)).1
          simp only
          exact ⟨hw.set ⟨hid, fun hf => nomatch hf⟩, hn⟩
      · rw [if_neg hok]
        exact ⟨hw, hn⟩
  | create ok status newWorkload =>
      simp only [Orchestrator.applyOp, Orchestrator.createWorkload]
      by_cases hok : ok = true
      · rw [if_pos hok]
        exact ⟨hw.set ⟨rfl, fun hf => nomatch hf⟩, hn⟩
      · rw [if_neg hok]
        exact ⟨hw, hn⟩

/-- Well-formedness of the peers store holds after any operation
sequence of the `useP2P` hook. -/
theorem p2p_ops_storeOk (pops : List P2P.Op) :
    StoreOk P2P.NormalizedPeer.id true
      (pops.foldl (fun s op => P2P.applyOp op s) P2P.initialP2PState).peers := by
  suffices h : ∀ (ops : List P2P.Op) (s : P2P.P2PState),
      StoreOk P2P.NormalizedPeer.id true s.peers →
      StoreOk P2P.NormalizedPeer.id true
        (ops.foldl (fun s op => P2P.applyOp op s) s).peers by
    exact h pops P2P.initialP2PState StoreOk.nil
  intro ops
  induction ops with
  | nil => exact fun s hs => hs
  | cons op rest ih =>
      intro s hs
      exact ih _ (p2p_applyOp_storeOk op s hs)

/-- Well-formedness of the workloads and nodes stores holds after any
operation sequence of the `useOrchestrator` hook. -/
theorem orch_ops_storeOk (oops : List Orchestrator.Op) :
    StoreOk Orchestrator.Workload.id false
      (oops.foldl (fun s op => Orchestrator.applyOp op s)
        Orchestrator.initialOrchestratorState).workloads
    ∧ StoreOk Orchestrator.NodeHealth.nodeId false
      (oops.foldl (fun s op => Orchestrator.applyOp op s)
        Orchestrator.initialOrchestratorState).nodes := by
  suffices h : ∀ (ops : List Orchestrator.Op) (s : Orchestrator.OrchestratorState),
      StoreOk Orchestrator.Workload.id false s.workloads →
      StoreOk Orchestrator.NodeHealth.nodeId false s.nodes →
      StoreOk Orchestrator.Workload.id false
        (ops.foldl (fun s op => Orchestrator.applyOp op s) s).workloads
      ∧ StoreOk Orchestrator.NodeHealth.nodeId false
        (ops.foldl (fun s op => Orchestrator.applyOp op s) s).nodes by
    exact h oops Orchestrator.initialOrchestratorState StoreOk.nil StoreOk.nil
  intro ops
  induction ops with
  | nil => exact fun s hw hn => ⟨hw, hn⟩
  | cons op rest ih =>
      intro s hw hn
      obtain ⟨hw', hn'⟩ := orch_applyOp_storeOk op s hw hn
      exact ih _ hw' hn'

/-- A workload payload carrying an empty identifier, as a backend could
deliver in a `workload_created` frame (`event.data as Workload` is not
validated). -/
def c8EmptyIdWorkload : Orchestrator.Workload :=
  { id := "", status := "pending", progress := 0, createdAt := 0 }

/-- C8 counterexample: a `workload_created` frame whose payload has an
empty id is upserted unchecked (`useOrchestrator.ts` line 70), so the
workloads store then holds an entry whose entity has an empty
identifier — refuting the claimed non-empty-identifier invariant for the
workloads (and nodes) stores. -/
theorem c8_counterexample :
    (Orchestrator.handleMessage
        (Orchestrator.OrchestratorEvent.workload_created c8EmptyIdWorkload)
        Orchestrator.initialOrchestratorState).workloads
      = [("", c8EmptyIdWorkload)]
    ∧ c8EmptyIdWorkload.id = "" := by
  decide

/-- C8 (amended): after every sequence of operations (snapshot merges,
single-entity upserts, removals, fetches, commands) each entity store
holds pairwise-distinct identifiers — an upsert of an existing identifier
replaces in place — and every stored entity's identifier equals its key;
the PEERS store additionally holds only entities with a non-empty
identifier, while the workloads and nodes handlers do not validate
emptiness (a payload with an empty identifier is stored as such). -/
theorem c8_store_invariant_amended (pops : List P2P.Op)
    (oops : List Orchestrator.Op) :
    (mapKeys (pops.foldl (fun s op => P2P.applyOp op s)
        P2P.initialP2PState).peers).Nodup
    ∧ (∀ e ∈ (pops.foldl (fun s op => P2P.applyOp op s)
        P2P.initialP2PState).peers, e.2.id = e.1 ∧ e.1 ≠ "")
    ∧ (mapKeys (oops.foldl (fun s op => Orchestrator.applyOp op s)
        Orchestrator.initialOrchestratorState).workloads).Nodup
    ∧ (∀ e ∈ (oops.foldl (fun s op => Orchestrator.applyOp op s)
        Orchestrator.initialOrchestratorState).workloads, e.2.id = e.1)
    ∧ (mapKeys (oops.foldl (fun s op => Orchestrator.applyOp op s)
        Orchestrator.initialOrchestratorState).nodes).Nodup
    ∧ (∀ e ∈ (oops.foldl (fun s op => Orchestrator.applyOp op s)
        Orchestrator.initialOrchestratorState).nodes, e.2.nodeId = e.1) := by
  obtain ⟨hp1, hp2⟩ := p2p_ops_storeOk pops
  obtain ⟨⟨hw1, hw2⟩, ⟨hn1, hn2⟩⟩ := orch_ops_storeOk oops
  exact ⟨hp1, fun e he => ⟨(hp2 e he).1, (hp2 e he).2 rfl⟩,
    hw1, fun e he => (hw2 e he).1, hn1, fun e he => (hn2 e he).1⟩
